import Mathlib

/-!
Verification of the Keepr payment-processor engine: the fee calculator,
ledger posting model, reconciliation summary builder, drift classifier, and
the payout orchestration and HTTP-boundary wiring found in
`src/platform/services/payment-processor-rs/src/main.rs`.

The `payments` and `reconciliation` Rust modules referenced by `main.rs`
are not part of the available sources, so the pure computations they
contain (`calculate_fees`, `post`, `compute_reconciliation_summary`,
`create_drift_alert`, `PayoutReconciliationService::process_payout`) are
modelled from the specification; each such definition says so in its doc
comment.  Everything visible in `main.rs` (handler wiring, request types,
integer casts, the warning/critical threshold derivation) is embedded from
that source directly.
-/

namespace Keepr

/-- Fee mode from the spec: `Absorb` deducts the fee from the receiving
proceeds of the receiving party, `Pass` adds it on top of the charge to the payer. -/
inductive FeeMode where
  | Absorb
  | Pass
deriving DecidableEq, Repr

/-- Modelled from the spec: `payments.rs` is absent from the sources.
Fee configuration per §3: flat fee amounts in cents and percentage fees,
one pair per party, each with a mode.  Cent amounts are non-negative
integers (the service boundary carries cent amounts as unsigned 32-bit
integers, `main.rs` lines 193 and 409, and §7 rejects malformed
configuration before computation); the decimal percentages are modelled as
rationals, likewise non-negative. -/
structure FeeConfig where
  platform_fee_cents : ℕ
  platform_fee_percent : ℚ
  platform_fee_mode : FeeMode
  gateway_fee_cents : ℕ
  gateway_fee_percent : ℚ
  gateway_fee_mode : FeeMode
  platform_fee_percent_nonneg : 0 ≤ platform_fee_percent
  gateway_fee_percent_nonneg : 0 ≤ gateway_fee_percent

/-- Fee breakdown per §3 of the spec: what the payer is charged and what
each party retains, all in integer cents. -/
structure FeeBreakdown where
  base_amount_cents : ℤ
  platform_fee_cents : ℤ
  gateway_fee_cents : ℤ
  application_fee_cents : ℤ
  charge_amount_cents : ℤ
deriving DecidableEq, Repr

/-- Round-half-up to the nearest integer: the single documented rounding
rule of §3 (`x.5` rounds away from zero for non-negative `x`). -/
def round_half_up (q : ℚ) : ℤ := ⌊q + 1 / 2⌋

/-- One fee line per §4.1: the percentage applied to the base, rounded
half-up, plus the flat per-transaction amount. -/
def fee_component (base_amount_cents : ℕ) (percent : ℚ) (flat_cents : ℕ) : ℤ :=
  round_half_up ((base_amount_cents : ℚ) * percent / 100) + (flat_cents : ℤ)

/-- Modelled from the spec: `payments.rs` is absent from the sources.
`calculate_fees` per §4.1: computes both fee lines, adds each `Pass`-mode
fee on top of the base to obtain the charge, and always reports the
platform fee as the application fee.  The base amount is a `u32` in the
source signature (`main.rs` lines 193 and 420), modelled as `ℕ`. -/
def calculate_fees (base_amount_cents : ℕ) (config : FeeConfig) : FeeBreakdown :=
  let pf := fee_component base_amount_cents config.platform_fee_percent config.platform_fee_cents
  let gf := fee_component base_amount_cents config.gateway_fee_percent config.gateway_fee_cents
  { base_amount_cents := (base_amount_cents : ℤ)
    platform_fee_cents := pf
    gateway_fee_cents := gf
    application_fee_cents := pf
    charge_amount_cents := (base_amount_cents : ℤ)
      + (if config.platform_fee_mode = FeeMode.Pass then pf else 0)
      + (if config.gateway_fee_mode = FeeMode.Pass then gf else 0) }

/-- Debit or credit side of a ledger entry. -/
inductive Side where
  | Debit
  | Credit
deriving DecidableEq, Repr

/-- One ledger entry per §3 (the environment-supplied `created_at`
timestamp is omitted: no claim constrains it and the `post` contract of §4.2
does not take it as an input). -/
structure LedgerEntry where
  account : String
  side : Side
  amount_cents : ℤ
  reference : String
deriving DecidableEq, Repr

/-- The atomic unit the engine emits: a matched debit/credit pair. -/
structure LedgerPosting where
  debit : LedgerEntry
  credit : LedgerEntry
deriving DecidableEq, Repr

/-- Error raised by the ledger model for a non-positive posting amount. -/
inductive LedgerError where
  | InvalidAmount
deriving DecidableEq, Repr

/-- Modelled from the spec: the ledger model is absent from the sources.
§4.2 `post`: fails with `InvalidAmount` when `amount_cents ≤ 0`, otherwise
builds both sides of the posting from the single supplied amount. -/
def post (amount_cents : ℤ) (debit_account credit_account reference : String) :
    Except LedgerError LedgerPosting :=
  if amount_cents ≤ 0 then
    .error .InvalidAmount
  else
    .ok { debit := ⟨debit_account, .Debit, amount_cents, reference⟩
          credit := ⟨credit_account, .Credit, amount_cents, reference⟩ }

/-- Sum of the debit sides of a sequence of postings. -/
def sum_debits (l : List LedgerPosting) : ℤ :=
  (l.map fun p => p.debit.amount_cents).sum

/-- Sum of the credit sides of a sequence of postings. -/
def sum_credits (l : List LedgerPosting) : ℤ :=
  (l.map fun p => p.credit.amount_cents).sum

/-- Modelled from the spec: the validation function of §4.2 over a sequence of
postings. -/
def is_balanced (l : List LedgerPosting) : Bool :=
  l.all fun p => p.debit.amount_cents == p.credit.amount_cents

/-- Component totals of a reconciliation summary, per §3. -/
structure ReconciliationComponents where
  payments : ℤ
  refunds : ℤ
  gateway_fees : ℤ
  platform_fees : ℤ
  chargebacks : ℤ
deriving DecidableEq, Repr

/-- Reconciliation summary per §3. -/
structure ReconciliationSummary where
  payout_id : String
  campground_id : String
  stripe_amount_cents : ℤ
  expected_amount_cents : ℤ
  drift_cents : ℤ
  components : ReconciliationComponents
deriving DecidableEq, Repr

/-- Modelled from the spec: `reconciliation.rs` is absent from the
sources.  §4.3 `summarize`: `expected = payments − refunds − gateway_fees −
platform_fees − chargebacks`, `drift = stripe_amount − expected`, a pure
function of exactly these inputs.  (The caller in `main.rs` line 485 also
passes the configured drift threshold into this function; the
contract in the spec takes only the eight inputs below and makes the summary
independent of any threshold, so the model omits that argument.) -/
def compute_reconciliation_summary (payout_id campground_id : String)
    (stripe_amount_cents payments refunds gateway_fees platform_fees chargebacks : ℤ) :
    ReconciliationSummary :=
  let expected := payments - refunds - gateway_fees - platform_fees - chargebacks
  { payout_id := payout_id
    campground_id := campground_id
    stripe_amount_cents := stripe_amount_cents
    expected_amount_cents := expected
    drift_cents := stripe_amount_cents - expected
    components := ⟨payments, refunds, gateway_fees, platform_fees, chargebacks⟩ }

/-- Severity tiers of a drift alert, per §3. -/
inductive Severity where
  | Balanced
  | Warning
  | Critical
deriving DecidableEq, Repr

/-- Drift alert record per §3. -/
structure DriftAlert where
  payout_id : String
  drift_cents : ℤ
  severity : Severity
deriving DecidableEq, Repr

/-- Modelled from the spec: `reconciliation.rs` is absent from the
sources.  §4.3 `classify_drift`, following its four bullets in order:
zero drift → no alert; `|drift| ≤ warning` → no alert; `|drift| ≤
critical` → `Warning`; otherwise `Critical`. -/
def create_drift_alert (s : ReconciliationSummary)
    (warning_threshold_cents critical_threshold_cents : ℤ) : Option DriftAlert :=
  if s.drift_cents = 0 then none
  else if |s.drift_cents| ≤ warning_threshold_cents then none
  else if |s.drift_cents| ≤ critical_threshold_cents then
    some ⟨s.payout_id, s.drift_cents, .Warning⟩
  else
    some ⟨s.payout_id, s.drift_cents, .Critical⟩

/-- Gateway payout data: the payout total and categorized component totals
the orchestrator consumes, already fetched from the gateway collaborator
(§1, §6: the engine consumes gateway responses as already-fetched
integers). -/
structure PayoutData where
  stripe_amount_cents : ℤ
  payments : ℤ
  refunds : ℤ
  gateway_fees : ℤ
  platform_fees : ℤ
  chargebacks : ℤ
deriving DecidableEq, Repr

/-- Persisted outcome of processing one payout, per §3: the summary plus
the reference ids of the generated postings. -/
structure ReconciliationRecord where
  summary : ReconciliationSummary
  posting_references : List String
deriving DecidableEq, Repr

/-- Modelled from the spec: the gateway-clearing account the net payout
amount moves out of (§4.4). -/
def gateway_clearing_account : String := "stripe_clearing"

/-- Modelled from the spec: the campground payable account the net
payout amount moves into (§4.4). -/
def campground_payable_account (campground_id : String) : String :=
  "campground_payable:" ++ campground_id

/-- Modelled from the spec: `reconciliation.rs` is absent from the
sources.  §4.4 `process_payout` after the external gateway fetch (the
fetched totals are the `data` argument): build the summary, construct the
single balancing posting moving the net payout amount from the
gateway-clearing account to the campground payable account, and return
the record together with the postings; persistence is left to the caller
(`main.rs` lines 447-451 insert the returned entries). -/
def process_payout (payout_id campground_id : String) (data : PayoutData) :
    Except LedgerError (ReconciliationRecord × List LedgerPosting) :=
  let summary := compute_reconciliation_summary payout_id campground_id
    data.stripe_amount_cents data.payments data.refunds data.gateway_fees
    data.platform_fees data.chargebacks
  match post data.stripe_amount_cents gateway_clearing_account
      (campground_payable_account campground_id) payout_id with
  | .error e => .error e
  | .ok p => .ok ({ summary := summary, posting_references := [payout_id] }, [p])

/-- Request body of the compute-summary endpoint, from `main.rs` lines
459-469: ids as strings, all cent amounts as signed 64-bit integers. -/
structure ComputeSummaryRequest where
  payout_id : String
  campground_id : String
  stripe_amount_cents : ℤ
  payments_cents : ℤ
  refunds_cents : ℤ
  stripe_fees_cents : ℤ
  platform_fees_cents : ℤ
  chargebacks_cents : ℤ
deriving DecidableEq, Repr

/-- The compute-summary handler from `main.rs` lines 472-510: builds the
summary from the request fields, then classifies drift with the single
configured `payout_drift_threshold_cents` as the warning threshold and ten
times it as the critical threshold (`main.rs` lines 491-492).  The
configured threshold is an unsigned configuration value cast to `i64` at
the call site, modelled as `ℕ`. -/
def compute_summary (req : ComputeSummaryRequest)
    (payout_drift_threshold_cents : ℕ) : ReconciliationSummary × Option DriftAlert :=
  let summary := compute_reconciliation_summary req.payout_id req.campground_id
    req.stripe_amount_cents req.payments_cents req.refunds_cents
    req.stripe_fees_cents req.platform_fees_cents req.chargebacks_cents
  let alert := create_drift_alert summary (payout_drift_threshold_cents : ℤ)
    ((payout_drift_threshold_cents : ℤ) * 10)
  (summary, alert)

/-- Request body of the fee-calculation endpoint, from `main.rs` lines
407-412: `amount_cents` is a `u32`, so it carries a value between `0` and
`2^32 - 1`; `fee_config` is an optional per-request override. -/
structure CalculateFeesRequest where
  amount_cents : ℕ
  amount_cents_lt : amount_cents < 2 ^ 32
  fee_config : Option FeeConfig

/-- Modelled from the spec: §4.1 requires a negative base amount be
rejected as a caller error before it reaches `calculate_fees`.  This is
the validated entry point over signed cent amounts. -/
def calculate_fees_checked (base_amount_cents : ℤ) (config : FeeConfig) :
    Except String FeeBreakdown :=
  if base_amount_cents < 0 then
    .error "base_amount_cents must be non-negative"
  else
    .ok (calculate_fees base_amount_cents.toNat config)

/-- The fee-calculation handler from `main.rs` lines 415-423: uses the
fee config of the request when present, the deployment default otherwise, and
hands the `u32` request amount to the fee calculator. -/
def calculate_fees_handler (req : CalculateFeesRequest)
    (default_fee_config : FeeConfig) : Except String FeeBreakdown :=
  calculate_fees_checked (req.amount_cents : ℤ)
    (req.fee_config.getD default_fee_config)

/-- Modelled from the spec: `payments.rs` is absent from the sources.
The validation `main.rs` line 180 applies to a create-payment-intent
request before fees are calculated; per §4.1 a negative cent amount is a
caller error and is rejected here.  The spec states no upper bound. -/
def validate_create_payment_intent (amount_cents : ℤ) : Except String ℤ :=
  if amount_cents < 0 then
    .error "amount_cents must be non-negative"
  else
    .ok amount_cents

/-- The Rust `as u32` conversion applied to the signed request cent
amount at `main.rs` line 193 (`dto.amount_cents as u32`): an `as` cast
keeps the low 32 bits in two-complement representation and never reports an error. -/
def wrap_u32 (n : ℤ) : ℕ := (n % 2 ^ 32).toNat

/-- The cent-amount path of `create_payment_intent` (`main.rs` lines
173-233): validate the request, then convert the validated amount with the
unchecked `as u32` cast of line 193 before fee calculation. -/
def create_payment_intent_base (amount_cents : ℤ) : Except String ℕ :=
  (validate_create_payment_intent amount_cents).map wrap_u32

/-- The fee configuration of the worked example in §8: platform 3 percent
plus 30 cents absorbed, gateway 2.9 percent plus 30 cents passed on to the
payer. -/
def example_fee_config : FeeConfig :=
  { platform_fee_cents := 30
    platform_fee_percent := 3
    platform_fee_mode := .Absorb
    gateway_fee_cents := 30
    gateway_fee_percent := 29 / 10
    gateway_fee_mode := .Pass
    platform_fee_percent_nonneg := by norm_num
    gateway_fee_percent_nonneg := by norm_num }

/-- A percentage-plus-flat fee line is non-negative when the percentage
and the flat amount are. -/
theorem fee_component_nonneg (b : ℕ) (p : ℚ) (hp : 0 ≤ p) (f : ℕ) :
    0 ≤ fee_component b p f := by
  unfold fee_component round_half_up
  have hq : (0 : ℚ) ≤ (b : ℚ) * p / 100 := by positivity
  have h1 : (0 : ℤ) ≤ ⌊(b : ℚ) * p / 100 + 1 / 2⌋ := by
    apply Int.le_floor.mpr
    push_cast
    linarith
  have h2 : (0 : ℤ) ≤ (f : ℤ) := Int.natCast_nonneg f
  linarith

/-- Claim C1: for every base amount and every fee configuration, the
breakdown returned by `calculate_fees` satisfies `charge_amount_cents =
base_amount_cents` plus the sum of exactly the fees whose mode is `Pass`,
`application_fee_cents = platform_fee_cents` regardless of either mode,
and every field is non-negative. -/
theorem calculate_fees_invariant (b : ℕ) (config : FeeConfig) :
    (calculate_fees b config).charge_amount_cents
        = (calculate_fees b config).base_amount_cents
          + (if config.platform_fee_mode = FeeMode.Pass then
              (calculate_fees b config).platform_fee_cents else 0)
          + (if config.gateway_fee_mode = FeeMode.Pass then
              (calculate_fees b config).gateway_fee_cents else 0)
      ∧ (calculate_fees b config).application_fee_cents
          = (calculate_fees b config).platform_fee_cents
      ∧ 0 ≤ (calculate_fees b config).base_amount_cents
      ∧ 0 ≤ (calculate_fees b config).platform_fee_cents
      ∧ 0 ≤ (calculate_fees b config).gateway_fee_cents
      ∧ 0 ≤ (calculate_fees b config).application_fee_cents
      ∧ 0 ≤ (calculate_fees b config).charge_amount_cents := by
  have hp := fee_component_nonneg b config.platform_fee_percent
    config.platform_fee_percent_nonneg config.platform_fee_cents
  have hg := fee_component_nonneg b config.gateway_fee_percent
    config.gateway_fee_percent_nonneg config.gateway_fee_cents
  have hb : (0 : ℤ) ≤ (b : ℤ) := Int.natCast_nonneg b
  refine ⟨rfl, rfl, hb, hp, hg, hp, ?_⟩
  simp only [calculate_fees]
  split_ifs <;> linarith

/-- Claim C2: on base 10000 with platform fee 3 percent plus 30 cents in
`Absorb` mode and gateway fee 2.9 percent plus 30 cents in `Pass` mode,
`calculate_fees` returns platform fee 330, gateway fee 320, charge 10320
and application fee 330. -/
theorem calculate_fees_example :
    calculate_fees 10000 example_fee_config =
      { base_amount_cents := 10000, platform_fee_cents := 330, gateway_fee_cents := 320,
        application_fee_cents := 330, charge_amount_cents := 10320 } := by
  norm_num [calculate_fees, fee_component, round_half_up, example_fee_config,
    FeeBreakdown.mk.injEq]
  decide

/-- Claim C3: for every amount and every fee configuration, the breakdown
returned by `calculate_fees` has a charge at least the base amount and a
non-negative application fee. -/
theorem calculate_fees_charge_ge_base (b : ℕ) (config : FeeConfig) :
    (calculate_fees b config).base_amount_cents
        ≤ (calculate_fees b config).charge_amount_cents
      ∧ 0 ≤ (calculate_fees b config).application_fee_cents := by
  have hp := fee_component_nonneg b config.platform_fee_percent
    config.platform_fee_percent_nonneg config.platform_fee_cents
  have hg := fee_component_nonneg b config.gateway_fee_percent
    config.gateway_fee_percent_nonneg config.gateway_fee_cents
  constructor
  · simp only [calculate_fees]
    split_ifs <;> linarith
  · exact hp

/-- Claim C4: the summary builder is a pure function of exactly its
inputs, with `expected_amount_cents = payments − refunds − gateway_fees −
platform_fees − chargebacks` and `drift_cents = stripe_amount_cents −
expected_amount_cents`; on the worked example (stripe 50000, payments
52000, refunds 1000, gateway fees 800, platform fees 200, chargebacks 0)
the expected amount is 50000, the drift is 0, and no alert is produced at
any thresholds. -/
theorem compute_reconciliation_summary_pure (pid cgid : String)
    (stripe p r g pf cb : ℤ) :
    compute_reconciliation_summary pid cgid stripe p r g pf cb =
      { payout_id := pid, campground_id := cgid, stripe_amount_cents := stripe,
        expected_amount_cents := p - r - g - pf - cb,
        drift_cents := stripe - (p - r - g - pf - cb),
        components := ⟨p, r, g, pf, cb⟩ }
      ∧ (compute_reconciliation_summary "po_ex1" "cg_ex1"
          50000 52000 1000 800 200 0).expected_amount_cents = 50000
      ∧ (compute_reconciliation_summary "po_ex1" "cg_ex1"
          50000 52000 1000 800 200 0).drift_cents = 0
      ∧ ∀ w c : ℤ, create_drift_alert (compute_reconciliation_summary "po_ex1" "cg_ex1"
          50000 52000 1000 800 200 0) w c = none := by
  refine ⟨rfl, by decide, by decide, ?_⟩
  intro w c
  have h0 : (compute_reconciliation_summary "po_ex1" "cg_ex1"
      50000 52000 1000 800 200 0).drift_cents = 0 := by decide
  simp [create_drift_alert, h0]

/-- For non-negative warning thresholds, the classifier returns no alert
exactly when the drift magnitude is within the warning threshold. -/
theorem create_drift_alert_none_iff (s : ReconciliationSummary) (w c : ℤ)
    (hw : 0 ≤ w) :
    create_drift_alert s w c = none ↔ |s.drift_cents| ≤ w := by
  unfold create_drift_alert
  split_ifs with h0 h1 h2
  · exact iff_of_true rfl (by rw [h0, abs_zero]; exact hw)
  · exact iff_of_true rfl h1
  · exact iff_of_false (by simp) h1
  · exact iff_of_false (by simp) h1

/-- For non-negative warning thresholds, the classifier returns a
`Warning` alert exactly when the drift magnitude lies strictly between the
warning and critical thresholds (inclusive above). -/
theorem create_drift_alert_warning_iff (s : ReconciliationSummary) (w c : ℤ)
    (hw : 0 ≤ w) :
    create_drift_alert s w c = some ⟨s.payout_id, s.drift_cents, .Warning⟩
      ↔ w < |s.drift_cents| ∧ |s.drift_cents| ≤ c := by
  unfold create_drift_alert
  split_ifs with h0 h1 h2
  · refine iff_of_false (by simp) ?_
    rw [h0, abs_zero]
    rintro ⟨hlt, -⟩
    linarith
  · exact iff_of_false (by simp) (by rintro ⟨hlt, -⟩; exact absurd h1 (not_le.mpr hlt))
  · exact iff_of_true rfl ⟨not_le.mp h1, h2⟩
  · exact iff_of_false (by simp) (by rintro ⟨-, hle⟩; exact h2 hle)

/-- For ordered non-negative thresholds, the classifier returns a
`Critical` alert exactly when the drift magnitude exceeds the critical
threshold. -/
theorem create_drift_alert_critical_iff (s : ReconciliationSummary) (w c : ℤ)
    (hw : 0 ≤ w) (hc : w ≤ c) :
    create_drift_alert s w c = some ⟨s.payout_id, s.drift_cents, .Critical⟩
      ↔ c < |s.drift_cents| := by
  unfold create_drift_alert
  split_ifs with h0 h1 h2
  · refine iff_of_false (by simp) ?_
    rw [h0, abs_zero]
    intro hlt
    linarith
  · exact iff_of_false (by simp) (by intro hlt; linarith [le_trans h1 hc])
  · exact iff_of_false (by simp) (by intro hlt; exact absurd h2 (not_le.mpr hlt))
  · exact iff_of_true rfl (not_le.mp h2)

/-- With both thresholds zero, the classifier never returns a `Warning`
alert. -/
theorem create_drift_alert_zero_thresholds (s : ReconciliationSummary)
    (a : DriftAlert) (h : create_drift_alert s 0 0 = some a) :
    a.severity ≠ .Warning := by
  unfold create_drift_alert at h
  split_ifs at h with h0 h1
  injection h with h'
  rw [← h']
  simp

/-- Claim C5: for ordered non-negative thresholds the classifier is total
and non-overlapping — no alert iff the drift magnitude is within the
warning threshold, `Warning` iff it is between the thresholds, `Critical`
iff it exceeds the critical threshold; with both thresholds zero it never
returns `Warning`; and a drift of −500 with warning 100 and critical 1000
yields severity `Warning`. -/
theorem drift_classification_total (s : ReconciliationSummary) (w c : ℤ)
    (hw : 0 ≤ w) (hc : w ≤ c) :
    (create_drift_alert s w c = none ↔ |s.drift_cents| ≤ w)
      ∧ (create_drift_alert s w c = some ⟨s.payout_id, s.drift_cents, .Warning⟩
          ↔ w < |s.drift_cents| ∧ |s.drift_cents| ≤ c)
      ∧ (create_drift_alert s w c = some ⟨s.payout_id, s.drift_cents, .Critical⟩
          ↔ c < |s.drift_cents|)
      ∧ (∀ (s' : ReconciliationSummary) (a : DriftAlert),
          create_drift_alert s' 0 0 = some a → a.severity ≠ .Warning)
      ∧ create_drift_alert
          ⟨"po_ex2", "cg_ex2", 49500, 50000, -500, ⟨52000, 1000, 800, 200, 0⟩⟩
          100 1000 = some ⟨"po_ex2", -500, .Warning⟩ :=
  ⟨create_drift_alert_none_iff s w c hw,
   create_drift_alert_warning_iff s w c hw,
   create_drift_alert_critical_iff s w c hw hc,
   fun s' a h => create_drift_alert_zero_thresholds s' a h,
   by decide⟩

/-- Witness for claim C5 at warning 100 and critical 1000. -/
theorem drift_classification_total_witness :
    create_drift_alert
        ⟨"po_ex2", "cg_ex2", 49500, 50000, -500, ⟨52000, 1000, 800, 200, 0⟩⟩
        100 1000 = some ⟨"po_ex2", -500, .Warning⟩ :=
  (drift_classification_total
    ⟨"po_ex2", "cg_ex2", 49500, 50000, -500, ⟨52000, 1000, 800, 200, 0⟩⟩
    100 1000 (by norm_num) (by norm_num)).2.2.2.2

/-- `post` succeeds exactly on positive amounts, and then returns the one
posting built from that amount. -/
theorem post_ok_iff (a : ℤ) (d c r : String) (p : LedgerPosting) :
    post a d c r = .ok p
      ↔ 0 < a ∧ p = ⟨⟨d, .Debit, a, r⟩, ⟨c, .Credit, a, r⟩⟩ := by
  unfold post
  split_ifs with h
  · exact iff_of_false (by simp) (by rintro ⟨h1, -⟩; exact absurd h1 (not_lt.mpr h))
  · constructor
    · intro he
      injection he with h'
      exact ⟨not_le.mp h, h'.symm⟩
    · rintro ⟨-, rfl⟩
      rfl

/-- A sequence of individually balanced postings has equal debit and
credit totals. -/
theorem sum_balanced_of_pairs (l : List LedgerPosting)
    (h : ∀ p ∈ l, p.debit.amount_cents = p.credit.amount_cents) :
    sum_debits l = sum_credits l := by
  induction l with
  | nil => rfl
  | cons p t ih =>
      simp only [sum_debits, sum_credits, List.map_cons, List.sum_cons] at *
      rw [h p (List.mem_cons_self p t),
        ih fun q hq => h q (List.mem_cons_of_mem p hq)]

/-- Claim C6: `post` fails with `InvalidAmount` for every non-positive
amount; for every positive amount it succeeds with a posting whose debit
and credit entries carry equal amounts; and every sequence of postings it
produced has equal debit and credit sums. -/
theorem post_rejects_nonpositive_and_balances (a : ℤ) (d c r : String) :
    (a ≤ 0 → post a d c r = .error .InvalidAmount)
      ∧ (0 < a → post a d c r = .ok ⟨⟨d, .Debit, a, r⟩, ⟨c, .Credit, a, r⟩⟩)
      ∧ (∀ p : LedgerPosting, post a d c r = .ok p →
          p.debit.amount_cents = p.credit.amount_cents)
      ∧ (∀ l : List LedgerPosting,
          (∀ p ∈ l, ∃ a' d' c' r', post a' d' c' r' = .ok p) →
          sum_debits l = sum_credits l) := by
  refine ⟨fun h => by simp [post, h], fun h => ?_, fun p hp => ?_, fun l hl => ?_⟩
  · exact (post_ok_iff a d c r _).mpr ⟨h, rfl⟩
  · obtain ⟨-, rfl⟩ := (post_ok_iff a d c r p).mp hp
    rfl
  · refine sum_balanced_of_pairs l fun p hp => ?_
    obtain ⟨a', d', c', r', hpost⟩ := hl p hp
    obtain ⟨-, rfl⟩ := (post_ok_iff a' d' c' r' p).mp hpost
    rfl

/-- Witness for claim C6 at amounts −3 and 7. -/
theorem post_rejects_nonpositive_and_balances_witness :
    post (-3) "acct_a" "acct_b" "ref_1" = .error .InvalidAmount
      ∧ post 7 "acct_a" "acct_b" "ref_1" =
          .ok ⟨⟨"acct_a", .Debit, 7, "ref_1"⟩, ⟨"acct_b", .Credit, 7, "ref_1"⟩⟩
      ∧ sum_debits [⟨⟨"acct_a", .Debit, 7, "ref_1"⟩, ⟨"acct_b", .Credit, 7, "ref_1"⟩⟩]
          = sum_credits [⟨⟨"acct_a", .Debit, 7, "ref_1"⟩, ⟨"acct_b", .Credit, 7, "ref_1"⟩⟩] := by
  refine ⟨(post_rejects_nonpositive_and_balances (-3) "acct_a" "acct_b" "ref_1").1 (by norm_num),
    (post_rejects_nonpositive_and_balances 7 "acct_a" "acct_b" "ref_1").2.1 (by norm_num),
    (post_rejects_nonpositive_and_balances 7 "acct_a" "acct_b" "ref_1").2.2.2 _ ?_⟩
  intro p hp
  simp only [List.mem_singleton] at hp
  exact ⟨7, "acct_a", "acct_b", "ref_1", by rw [hp]; rfl⟩

/-- Claim C7 (refuting instance): the cent amount 2^32 + 100 passes the
spec-level validation, yet the `as u32` conversion of `main.rs` line 193
silently changes it to 100 without producing an error, so the conversion
between integer widths is not range-checked. -/
theorem create_payment_intent_truncation :
    validate_create_payment_intent (2 ^ 32 + 100) = .ok (2 ^ 32 + 100)
      ∧ create_payment_intent_base (2 ^ 32 + 100) = .ok (wrap_u32 (2 ^ 32 + 100))
      ∧ wrap_u32 (2 ^ 32 + 100) = 100
      ∧ ((wrap_u32 (2 ^ 32 + 100) : ℤ) ≠ (2 ^ 32 + 100 : ℤ)) := by
  refine ⟨by norm_num [validate_create_payment_intent], rfl, by decide, by decide⟩

/-- Claim C8: every successful `process_payout` returns exactly one
posting, balanced, carrying the net payout amount from the
gateway-clearing account to the campground payable account, together with
the reconciliation record for the payout. -/
theorem process_payout_one_balancing_posting (pid cgid : String) (data : PayoutData)
    (rec : ReconciliationRecord) (ps : List LedgerPosting)
    (h : process_payout pid cgid data = .ok (rec, ps)) :
    ps = [⟨⟨gateway_clearing_account, .Debit, data.stripe_amount_cents, pid⟩,
          ⟨campground_payable_account cgid, .Credit, data.stripe_amount_cents, pid⟩⟩]
      ∧ ps.length = 1
      ∧ (∀ p ∈ ps, p.debit.amount_cents = p.credit.amount_cents)
      ∧ rec = ⟨compute_reconciliation_summary pid cgid data.stripe_amount_cents
          data.payments data.refunds data.gateway_fees data.platform_fees
          data.chargebacks, [pid]⟩ := by
  unfold process_payout at h
  cases hp : post data.stripe_amount_cents gateway_clearing_account
      (campground_payable_account cgid) pid with
  | error e =>
      rw [hp] at h
      exact absurd h (by simp)
  | ok p =>
      rw [hp] at h
      simp only [Except.ok.injEq, Prod.mk.injEq] at h
      obtain ⟨hrec, hps⟩ := h
      obtain ⟨-, rfl⟩ := (post_ok_iff _ _ _ _ p).mp hp
      subst hps
      subst hrec
      refine ⟨rfl, rfl, ?_, rfl⟩
      intro q hq
      simp only [List.mem_singleton] at hq
      subst hq
      rfl

/-- Witness for claim C8 on a payout of 5000 cents. -/
theorem process_payout_one_balancing_posting_witness :
    ([⟨⟨gateway_clearing_account, .Debit, 5000, "po_w8"⟩,
       ⟨campground_payable_account "cg_w8", .Credit, 5000, "po_w8"⟩⟩] :
        List LedgerPosting).length = 1
      ∧ (⟨⟨gateway_clearing_account, .Debit, 5000, "po_w8"⟩,
          ⟨campground_payable_account "cg_w8", .Credit, 5000, "po_w8"⟩⟩ :
            LedgerPosting).debit.amount_cents
        = (⟨⟨gateway_clearing_account, .Debit, 5000, "po_w8"⟩,
            ⟨campground_payable_account "cg_w8", .Credit, 5000, "po_w8"⟩⟩ :
              LedgerPosting).credit.amount_cents :=
  ⟨(process_payout_one_balancing_posting "po_w8" "cg_w8" ⟨5000, 6000, 500, 300, 200, 0⟩
      ⟨compute_reconciliation_summary "po_w8" "cg_w8" 5000 6000 500 300 200 0, ["po_w8"]⟩
      [⟨⟨gateway_clearing_account, .Debit, 5000, "po_w8"⟩,
        ⟨campground_payable_account "cg_w8", .Credit, 5000, "po_w8"⟩⟩] (by rfl)).2.1,
   (process_payout_one_balancing_posting "po_w8" "cg_w8" ⟨5000, 6000, 500, 300, 200, 0⟩
      ⟨compute_reconciliation_summary "po_w8" "cg_w8" 5000 6000 500 300 200 0, ["po_w8"]⟩
      [⟨⟨gateway_clearing_account, .Debit, 5000, "po_w8"⟩,
        ⟨campground_payable_account "cg_w8", .Credit, 5000, "po_w8"⟩⟩] (by rfl)).2.2.1
      _ (List.mem_singleton_self _)⟩

/-- Claim C9: the compute-summary handler always hands drift
classification a critical threshold equal to ten times the single
configured warning threshold, so a `Critical` alert is reachable only when
the drift magnitude exceeds ten times that threshold. -/
theorem compute_summary_critical_is_tenfold (req : ComputeSummaryRequest) (t : ℕ) :
    (compute_summary req t).2
        = create_drift_alert (compute_summary req t).1 (t : ℤ) ((t : ℤ) * 10)
      ∧ (∀ a : DriftAlert, (compute_summary req t).2 = some a →
          a.severity = .Critical →
          (t : ℤ) * 10 < |(compute_summary req t).1.drift_cents|) := by
  refine ⟨rfl, ?_⟩
  intro a ha hsev
  have ha' : create_drift_alert (compute_summary req t).1 (t : ℤ) ((t : ℤ) * 10)
      = some a := ha
  unfold create_drift_alert at ha'
  split_ifs at ha' with h0 h1 h2
  · injection ha' with h'
    rw [← h'] at hsev
    exact absurd hsev (by simp)
  · exact not_le.mp h2

/-- Witness for claim C9: threshold 10 and a drift of 2000 yield a
`Critical` alert, and 100 < 2000. -/
theorem compute_summary_critical_is_tenfold_witness :
    ((10 : ℕ) : ℤ) * 10
      < |(compute_summary ⟨"po_w9", "cg_w9", 2000, 0, 0, 0, 0, 0⟩ 10).1.drift_cents| :=
  (compute_summary_critical_is_tenfold ⟨"po_w9", "cg_w9", 2000, 0, 0, 0, 0, 0⟩ 10).2
    ⟨"po_w9", 2000, .Critical⟩ (by decide) rfl

/-- Claim C10: every request reaching the fee-calculation endpoint carries
a base amount between 0 and 2^32 − 1 (the `u32` of `main.rs` line 409), so
the negative-amount caller error can never occur there and the handler
always returns a breakdown. -/
theorem calculate_fees_endpoint_u32 (req : CalculateFeesRequest) (dc : FeeConfig) :
    (0 : ℤ) ≤ (req.amount_cents : ℤ)
      ∧ req.amount_cents ≤ 2 ^ 32 - 1
      ∧ calculate_fees_handler req dc
          = .ok (calculate_fees req.amount_cents (req.fee_config.getD dc)) := by
  refine ⟨Int.natCast_nonneg _, by have := req.amount_cents_lt; omega, ?_⟩
  unfold calculate_fees_handler calculate_fees_checked
  rw [if_neg (not_lt.mpr (Int.natCast_nonneg _))]
  simp

end Keepr
